import Mathlib

/-
Verification development for the balancebeam reverse proxy
(src/proj-2/balancebeam/src/main.rs).

The proxy's logic is embedded shallowly:
* times are natural numbers of seconds; `Instant::elapsed` on a stored
  instant `when` at current time `now` is `now - when` (truncated
  subtraction; in any execution `now ≥ when`);
* I/O outcomes (connect attempts, stream writes, stream reads) are
  supplied as oracle parameters, since the code branches only on
  success/failure and on the status code of a parsed response;
* the random index from `rng.gen_range(0, len)` is supplied as an oracle
  `picks`, reduced modulo the list length to model its in-range guarantee;
* the unbounded `loop` in `connect_to_upstream` is given a fuel bound;
  exhausting every fuel bound without the loop returning witnesses that
  the loop never exits.
-/

namespace BalanceBeam

/-! ## Rate limiting (handle_connection, lines 300-330 of main.rs) -/

/-- Decision of the rate-limiting block for one request. -/
inductive RateDecision where
  | allow
  | deny429
deriving DecidableEq, Repr

/-- The rate-limiting block of `handle_connection` for a single request from
one client IP.  `limits` is `max_requests_per_minute`, `now` the current time,
`entry` the client's stored `(Instant, usize)` pair in `client_requests_map`
(or `none` if the IP has no entry yet).  Returns the decision and the entry
stored afterwards.  Mirrors main.rs lines 300-330: the whole block is guarded
by `limits != 0`; a missing entry is inserted as `(now, 1)`; otherwise the
local `count` is zeroed when `now - when ≥ 60`, compared against the limit
(deny leaves the map untouched because `continue` precedes the insert), and
on allow the code inserts `(*when, count + 1)` — the original `when`. -/
def rateLimit (limits now : Nat) (entry : Option (Nat × Nat)) :
    RateDecision × Option (Nat × Nat) :=
  if limits ≠ 0 then
    match entry with
    | none => (RateDecision.allow, some (now, 1))
    | some (when, counter) =>
        let count := if 60 ≤ now - when then 0 else counter
        if limits ≤ count then
          (RateDecision.deny429, some (when, counter))
        else
          (RateDecision.allow, some (when, count + 1))
  else
    (RateDecision.allow, entry)

/-- A sequence of requests from one IP at the given timestamps, threading the
stored entry through `rateLimit`; returns the decisions in order and the final
stored entry. -/
def rateSeq (limits : Nat) : Option (Nat × Nat) → List Nat →
    List RateDecision × Option (Nat × Nat)
  | entry, [] => ([], entry)
  | entry, t :: ts =>
      let r := rateLimit limits t entry
      let rest := rateSeq limits r.2 ts
      (r.1 :: rest.1, rest.2)

lemma rateLimit_zero (now : Nat) (entry : Option (Nat × Nat)) :
    rateLimit 0 now entry = (RateDecision.allow, entry) := by
  simp [rateLimit]

lemma rateLimit_first (limits now : Nat) (h : limits ≠ 0) :
    rateLimit limits now none = (RateDecision.allow, some (now, 1)) := by
  simp [rateLimit, h]

lemma rateLimit_within_allow (limits now when counter : Nat) (h : limits ≠ 0)
    (hw : ¬ 60 ≤ now - when) (hc : ¬ limits ≤ counter) :
    rateLimit limits now (some (when, counter)) =
      (RateDecision.allow, some (when, counter + 1)) := by
  simp [rateLimit, h, hw, hc]

lemma rateLimit_within_deny (limits now when counter : Nat) (h : limits ≠ 0)
    (hw : ¬ 60 ≤ now - when) (hc : limits ≤ counter) :
    rateLimit limits now (some (when, counter)) =
      (RateDecision.deny429, some (when, counter)) := by
  simp [rateLimit, h, hw, hc]

lemma rateLimit_expired (limits now when counter : Nat) (h : limits ≠ 0)
    (hw : 60 ≤ now - when) :
    rateLimit limits now (some (when, counter)) =
      (RateDecision.allow, some (when, 1)) := by
  have hl : ¬ limits ≤ 0 := by omega
  simp [rateLimit, h, hw, hl]

/-! ## Upstream selection (connect_to_upstream, lines 204-231 of main.rs) -/

/-- Result of a call to `connect_to_upstream`.  `ok idx s` is a successful
return of a stream connected to upstream `idx`, with `s` the upstream-liveness
vector at the moment of the successful pick; `allDead` is the early
`Err(..)` return ("all upstreams are dead"); `diverged` means the retry loop
did not exit within the given fuel bound. -/
inductive ConnectOutcome where
  | ok (idx : Nat) (s : List Bool)
  | allDead
  | diverged
deriving DecidableEq, Repr

/-- The retry `loop` of `connect_to_upstream`, bounded by `fuel` iterations.
`states` is `upstream_states` (the lock is held throughout, so no other task
mutates it); `picks f` is the random index drawn at the iteration with `f`
units of fuel remaining, reduced mod the list length to model
`rng.gen_range(0, upstream_addresses.len())`; `connect f idx` is whether
`TcpStream::connect` to upstream `idx` succeeds at that iteration.  Returns
the loop's exit (`none` if it has not exited within `fuel` iterations)
together with the list of upstream indices on which a connect was attempted.
A dead index is skipped (`continue`) without a connect attempt; a failed
connect marks the index dead and continues.  The loop body contains no
`return Err`. -/
def connectLoop (picks : Nat → Nat) (connect : Nat → Nat → Bool) :
    Nat → List Bool → Option (Nat × List Bool) × List Nat
  | 0, _ => (none, [])
  | f + 1, states =>
      let idx := picks (f + 1) % states.length
      if states.getD idx false = false then
        connectLoop picks connect f states
      else if connect (f + 1) idx then
        (some (idx, states), [idx])
      else
        let r := connectLoop picks connect f (states.set idx false)
        (r.1, idx :: r.2)

/-- `connect_to_upstream` (main.rs lines 204-231): under the state lock, if no
entry of `upstream_states` is `true`, return the global failure error at once;
otherwise run the retry loop.  Returns the outcome and the list of attempted
connects. -/
def connect_to_upstream (picks : Nat → Nat) (connect : Nat → Nat → Bool)
    (fuel : Nat) (states : List Bool) : ConnectOutcome × List Nat :=
  if states.contains true = false then
    (ConnectOutcome.allDead, [])
  else
    match connectLoop picks connect fuel states with
    | (some (idx, s), atts) => (ConnectOutcome.ok idx s, atts)
    | (none, atts) => (ConnectOutcome.diverged, atts)

lemma connectLoop_ok_alive (picks : Nat → Nat) (connect : Nat → Nat → Bool) :
    ∀ (fuel : Nat) (states : List Bool) (idx : Nat) (s : List Bool)
      (atts : List Nat),
      connectLoop picks connect fuel states = (some (idx, s), atts) →
      s.getD idx false = true := by
  intro fuel
  induction fuel with
  | zero =>
      intro states idx s atts h
      simp [connectLoop] at h
  | succ f ih =>
      intro states idx s atts h
      rw [connectLoop] at h
      split at h
      · exact ih _ _ _ _ h
      · rename_i halive
        split at h
        · rw [Prod.mk.injEq, Option.some.injEq, Prod.mk.injEq] at h
          obtain ⟨⟨hidx, hs⟩, -⟩ := h
          subst hidx; subst hs
          simpa using halive
        · rw [Prod.mk.injEq] at h
          exact ih _ _ _ _ (Prod.ext h.1 rfl)

lemma connectLoop_allFail_none (picks : Nat → Nat) :
    ∀ (fuel : Nat) (states : List Bool),
      (connectLoop picks (fun _ _ => false) fuel states).1 = none := by
  intro fuel
  induction fuel with
  | zero => intro states; simp [connectLoop]
  | succ f ih =>
      intro states
      rw [connectLoop]
      split
      · exact ih _
      · simpa using ih _

/-! ## Connection handler (handle_connection, lines 246-365 of main.rs) -/

/-- The parse errors of the request codec as matched by `handle_connection`
(payloads dropped except the byte count of `IncompleteRequest`, which the
code matches against 0). -/
inductive RequestError where
  | incompleteRequest (n : Nat)
  | malformedRequest
  | invalidContentLength
  | contentLengthMismatch
  | requestBodyTooLarge
  | connectionError
deriving DecidableEq, Repr

/-- The status mapping of the inner `match error` at main.rs lines 280-287
(the argument of `make_http_error`). -/
def errorStatus : RequestError → Nat
  | RequestError.incompleteRequest _ => 400
  | RequestError.malformedRequest => 400
  | RequestError.invalidContentLength => 400
  | RequestError.contentLengthMismatch => 400
  | RequestError.requestBodyTooLarge => 413
  | RequestError.connectionError => 503

/-- A response sent to the client: either one the handler synthesizes with
`make_http_error`, or the upstream's own response relayed verbatim. -/
inductive Sent where
  | synth (status : Nat)
  | relay (status : Nat)
deriving DecidableEq, Repr

/-- How one iteration of the `handle_connection` request loop ends:
`ret` tears the client connection down (`return`), `cont` proceeds to read
the next request on the same connection (`continue` / falling to the bottom
of the `loop`). -/
inductive LoopExit where
  | ret
  | cont
deriving DecidableEq, Repr

/-- Observable effect of one iteration of the request loop. -/
structure StepResult where
  control : LoopExit
  /-- Responses sent to the client during the iteration, in order. -/
  sent : List Sent
  /-- Whether `request::write_to_stream` to the upstream was invoked. -/
  forwardAttempted : Bool
  /-- The client's rate-map entry after the iteration. -/
  entry : Option (Nat × Nat)
deriving DecidableEq, Repr

/-- One iteration of the request loop of `handle_connection` (main.rs lines
264-364).  `readReq` is the result of `request::read_from_stream` on the
client connection; `writeOk` whether `request::write_to_stream` to the
upstream succeeds; `readResp` the result of `response::read_from_stream` on
the upstream (`some status` on success).  Mirrors the source: a clean
end-of-stream (`IncompleteRequest(0)`) or a connection-level I/O error
returns with no response; any other parse error sends `errorStatus` and
continues; then the rate-limit block runs; a denial sends 429 and continues
without forwarding; otherwise the request is forwarded, a write failure or a
response-read failure sends 502 and returns, and a received response is
relayed to the client before the loop repeats. -/
def handleLoopBody (limits now : Nat) (entry : Option (Nat × Nat))
    (readReq : Except RequestError Unit) (writeOk : Bool)
    (readResp : Option Nat) : StepResult :=
  match readReq with
  | Except.error (RequestError.incompleteRequest 0) =>
      ⟨LoopExit.ret, [], false, entry⟩
  | Except.error RequestError.connectionError =>
      ⟨LoopExit.ret, [], false, entry⟩
  | Except.error e =>
      ⟨LoopExit.cont, [Sent.synth (errorStatus e)], false, entry⟩
  | Except.ok _ =>
      match rateLimit limits now entry with
      | (RateDecision.deny429, entry2) =>
          ⟨LoopExit.cont, [Sent.synth 429], false, entry2⟩
      | (RateDecision.allow, entry2) =>
          if writeOk then
            match readResp with
            | some status =>
                ⟨LoopExit.cont, [Sent.relay status], true, entry2⟩
            | none =>
                ⟨LoopExit.ret, [Sent.synth 502], true, entry2⟩
          else
            ⟨LoopExit.ret, [Sent.synth 502], true, entry2⟩

/-- The connect phase of `handle_connection` (main.rs lines 250-259):
`selectorOk` is whether `connect_to_upstream` returned a stream.  Yields the
responses sent and whether the request loop is entered. -/
def handleConnectPhase (selectorOk : Bool) : List Sent × Bool :=
  if selectorOk then ([], true) else ([Sent.synth 502], false)

/-! ## Active health check (active_health_check, lines 132-202 of main.rs) -/

/-- One probe of `active_health_check` (main.rs lines 148-188): the value of
the local `upstream_state`.  `connectOk` is whether `TcpStream::connect`
succeeds, `writeOk` whether `request::write_to_stream` succeeds, `readResp`
the result of `response::read_from_stream`.  The source initializes
`upstream_state = false`; a write failure is only logged ("do nothing") and
the probe still reads the response; the state becomes `true` exactly when a
response is read and its status is 200. -/
def probeUpstream (connectOk writeOk : Bool) (readResp : Option Nat) : Bool :=
  if connectOk then
    let _logged := writeOk
    match readResp with
    | some status => status == 200
    | none => false
  else
    false

/-- An observable event of one health-check cycle: probing upstream `idx`,
or writing `result` into `upstream_states[idx]` under the lock. -/
inductive HCEvent where
  | probe (idx : Nat)
  | store (idx : Nat) (result : Bool)
deriving DecidableEq, Repr

/-- One cycle of the `for upstream_idx in 0..upstream_addresses.len()` loop
of `active_health_check` (main.rs lines 147-200), over the per-upstream I/O
oracles.  Each iteration probes upstream `idx` and immediately stores the
result into the shared `upstream_states` before the next iteration.  Returns
the event trace of the cycle and the final `upstream_states`. -/
def healthCheckCycle (upstreamStates : List Bool) (connectOk writeOk : Nat → Bool)
    (readResp : Nat → Option Nat) : List HCEvent × List Bool :=
  (List.range upstreamStates.length).foldl
    (fun acc idx =>
      (acc.1 ++ [HCEvent.probe idx,
                 HCEvent.store idx
                   (probeUpstream (connectOk idx) (writeOk idx) (readResp idx))],
       acc.2.set idx (probeUpstream (connectOk idx) (writeOk idx) (readResp idx))))
    ([], upstreamStates)

lemma healthCheck_foldl (f : Nat → Bool) :
    ∀ (l : List Nat) (acc : List HCEvent) (s : List Bool),
      (l.foldl
        (fun acc idx =>
          (acc.1 ++ [HCEvent.probe idx, HCEvent.store idx (f idx)],
           acc.2.set idx (f idx)))
        (acc, s))
      = (acc ++ l.flatMap (fun i => [HCEvent.probe i, HCEvent.store i (f i)]),
         l.foldl (fun s i => s.set i (f i)) s) := by
  intro l
  induction l with
  | nil => intro acc s; simp
  | cons a l ih =>
      intro acc s
      simp only [List.foldl_cons, List.flatMap_cons, ih]
      simp

lemma getD_set_self : ∀ (l : List Bool) (i : Nat) (v : Bool), i < l.length →
    (l.set i v).getD i false = v := by
  intro l
  induction l with
  | nil => intro i v h; simp at h
  | cons a l ih =>
      intro i v h
      cases i with
      | zero => simp
      | succ j =>
          simp only [List.set, List.getD, List.get?]
          exact ih j v (by simpa using h)

lemma getD_set_other : ∀ (l : List Bool) (i j : Nat) (v : Bool), i ≠ j →
    (l.set i v).getD j false = l.getD j false := by
  intro l
  induction l with
  | nil => intro i j v h; simp
  | cons a l ih =>
      intro i j v h
      cases i with
      | zero =>
          cases j with
          | zero => exact absurd rfl h
          | succ k => simp
      | succ i2 =>
          cases j with
          | zero => simp
          | succ k =>
              simp only [List.set, List.getD, List.get?]
              exact ih i2 k v (by omega)

lemma setFold_length (f : Nat → Bool) :
    ∀ (l : List Nat) (s : List Bool),
      (l.foldl (fun s i => s.set i (f i)) s).length = s.length := by
  intro l
  induction l with
  | nil => intro s; simp
  | cons a l ih => intro s; simp [List.foldl_cons, ih]

lemma setFold_getD (f : Nat → Bool) :
    ∀ (n : Nat) (s : List Bool), n ≤ s.length → ∀ i, i < n →
      ((List.range n).foldl (fun s j => s.set j (f j)) s).getD i false = f i := by
  intro n
  induction n with
  | zero => intro s hn i hi; omega
  | succ m ih =>
      intro s hn i hi
      rw [List.range_succ, List.foldl_append]
      simp only [List.foldl_cons, List.foldl_nil]
      rcases Nat.lt_succ_iff_lt_or_eq.mp hi with hlt | heq
      · rw [getD_set_other _ _ _ _ (by omega)]
        exact ih s (by omega) i hlt
      · subst heq
        exact getD_set_self _ _ _ (by rw [setFold_length]; omega)

/-! ## Claim theorems -/

/-- C1: the spec requires that a call to `connect_to_upstream` in which every
upstream becomes marked dead during the retry loop itself detects "no alive
remain" and returns the global failure error.  The code does not: with one
upstream initially alive and every connect attempt failing (which marks the
upstream dead), the loop never exits for any fuel bound — it keeps re-picking
the now-dead index forever instead of returning the error. -/
theorem c1_drained_loop_diverges :
    ∀ (fuel : Nat) (picks : Nat → Nat),
      (connect_to_upstream picks (fun _ _ => false) fuel [true]).1 =
        ConnectOutcome.diverged := by
  intro fuel picks
  have h := connectLoop_allFail_none picks fuel [true]
  rcases hl : connectLoop picks (fun _ _ => false) fuel [true] with ⟨o, a⟩
  rw [hl] at h
  simp only at h
  subst h
  simp [connect_to_upstream, hl]

/-- C2 counterexample: at current time 100, with stored entry `(0, 3)` (window
start 60 or more seconds in the past) and limit 3, the request is allowed in a
fresh window, yet the stored entry afterwards is `(0, 1)` — the original
window start — not `(now, 1) = (100, 1)` as the claim states. -/
theorem c2_counterexample :
    60 ≤ 100 - (0 : Nat) ∧
    (rateLimit 3 100 (some (0, 3))).1 = RateDecision.allow ∧
    (rateLimit 3 100 (some (0, 3))).2 ≠ some (100, 1) := by
  decide

/-- C2 (amended): for every rate-limit check with `limit > 0` on an entry
whose window start is at least 60 seconds in the past, the count is treated
as reset to 0 before being compared against the limit, so the request is
allowed, but the stored window start is left unchanged: the entry stored
after an allowed request in a fresh window is `(original window start, 1)`,
not `(now, 1)`. -/
theorem c2_expired_window_reset :
    ∀ (limits now when counter : Nat), limits ≠ 0 → 60 ≤ now - when →
      rateLimit limits now (some (when, counter)) =
        (RateDecision.allow, some (when, 1)) := by
  intro limits now when counter h hw
  exact rateLimit_expired limits now when counter h hw

/-- C2 witness: the amended statement at limit 3, time 100, entry `(0, 7)`. -/
theorem c2_witness :
    rateLimit 3 100 (some (0, 7)) = (RateDecision.allow, some (0, 1)) :=
  c2_expired_window_reset 3 100 0 7 (by decide) (by decide)

/-- C3 counterexample: a probe whose connect succeeds, whose request write
fails, and whose response read succeeds with status 200 yields liveness
`true`, refuting the claim that any I/O failure at the write step yields
`false` (the source only logs a write failure and still reads the
response). -/
theorem c3_counterexample : probeUpstream true false (some 200) ≠ false := by
  decide

/-- C3 (amended): the liveness value written by a health-check probe is
`true` iff the connect succeeds and the response read succeeds with status
200; the outcome of the request write is ignored (a write failure is only
logged).  Connect failure, read failure, or a non-200 status yields
`false`. -/
theorem c3_probe_liveness :
    ∀ (connectOk writeOk : Bool) (readResp : Option Nat),
      probeUpstream connectOk writeOk readResp = true ↔
        connectOk = true ∧ readResp = some 200 := by
  intro c w r
  cases c <;> cases r <;> simp [probeUpstream]

/-- C4: with a configured limit of 3, the first three requests of a client
within the same 60-second window are allowed, the fourth within that window
is denied with 429 — and, at the handler level, the iteration denying it
sends only the synthesized 429, does not forward the request upstream, and
continues the connection — and a request arriving at least 60 seconds after
the first is allowed with the stored count restarting at 1. -/
theorem c4_limit_three_scenario :
    ∀ (t1 t2 t3 t4 t5 : Nat),
      t2 - t1 < 60 → t3 - t1 < 60 → t4 - t1 < 60 → 60 ≤ t5 - t1 →
      rateSeq 3 none [t1, t2, t3, t4, t5] =
        ([RateDecision.allow, RateDecision.allow, RateDecision.allow,
          RateDecision.deny429, RateDecision.allow], some (t1, 1)) ∧
      handleLoopBody 3 t4 (some (t1, 3)) (Except.ok ()) true (some 200) =
        ⟨LoopExit.cont, [Sent.synth 429], false, some (t1, 3)⟩ := by
  intro t1 t2 t3 t4 t5 h2 h3 h4 h5
  have s1 := rateLimit_first 3 t1 (by decide)
  have s2 := rateLimit_within_allow 3 t2 t1 1 (by decide) (by omega) (by omega)
  have s3 := rateLimit_within_allow 3 t3 t1 2 (by decide) (by omega) (by omega)
  have s4 := rateLimit_within_deny 3 t4 t1 3 (by decide) (by omega) (by omega)
  have s5 := rateLimit_expired 3 t5 t1 3 (by decide) h5
  constructor
  · simp [rateSeq, s1, s2, s3, s4, s5]
  · simp [handleLoopBody, s4]

/-- C4 witness: the scenario at times 0, 10, 20, 30, 60. -/
theorem c4_witness :
    rateSeq 3 none [0, 10, 20, 30, 60] =
      ([RateDecision.allow, RateDecision.allow, RateDecision.allow,
        RateDecision.deny429, RateDecision.allow], some (0, 1)) ∧
    handleLoopBody 3 30 (some (0, 3)) (Except.ok ()) true (some 200) =
      ⟨LoopExit.cont, [Sent.synth 429], false, some (0, 3)⟩ :=
  c4_limit_three_scenario 0 10 20 30 60 (by decide) (by decide) (by decide)
    (by decide)

/-- C5: every call to `connect_to_upstream` with no upstream marked alive
fails immediately with the global failure error and attempts no connect; and
whenever a call returns a connection to upstream `idx`, the liveness vector
at the moment `idx` was chosen marked `idx` alive — the selector never
connects to a known-dead upstream. -/
theorem c5_selector_safety :
    ∀ (picks : Nat → Nat) (connect : Nat → Nat → Bool) (fuel : Nat)
      (states : List Bool),
      (states.contains true = false →
        connect_to_upstream picks connect fuel states =
          (ConnectOutcome.allDead, [])) ∧
      (∀ (idx : Nat) (s : List Bool) (atts : List Nat),
        connect_to_upstream picks connect fuel states =
          (ConnectOutcome.ok idx s, atts) →
        s.getD idx false = true) := by
  intro picks connect fuel states
  constructor
  · intro h
    rw [connect_to_upstream, if_pos h]
  · intro idx s atts h
    rw [connect_to_upstream] at h
    split at h
    · simp at h
    · rcases hl : connectLoop picks connect fuel states with ⟨o, a⟩
      rw [hl] at h
      cases o with
      | none => simp at h
      | some p =>
          obtain ⟨i2, s2⟩ := p
          simp only [ConnectOutcome.ok.injEq, Prod.mk.injEq] at h
          obtain ⟨⟨rfl, rfl⟩, rfl⟩ := h
          exact connectLoop_ok_alive picks connect fuel states i2 s2 a hl

/-- C5 witness: with both upstreams dead the call fails at once with no
connect attempt, and a successful call on a single live upstream picked
index 0, which was marked alive. -/
theorem c5_witness :
    connect_to_upstream (fun _ => 0) (fun _ _ => true) 3 [false, false] =
      (ConnectOutcome.allDead, []) ∧
    ([true] : List Bool).getD 0 false = true := by
  constructor
  · exact (c5_selector_safety (fun _ => 0) (fun _ _ => true) 3
      [false, false]).1 (by decide)
  · exact (c5_selector_safety (fun _ => 0) (fun _ _ => true) 3 [true]).2
      0 [true] [0] (by decide)

/-- C6: with a configured limit of 0 the rate limiter is disabled: every
request in any sequence from one IP is allowed and the stored entry is never
touched, and at the handler level no iteration ever sends a synthesized 429,
whatever the request and the upstream I/O outcomes. -/
theorem c6_limit_zero_disabled :
    ∀ (entry : Option (Nat × Nat)) (ts : List Nat) (now : Nat)
      (readReq : Except RequestError Unit) (writeOk : Bool)
      (readResp : Option Nat),
      rateSeq 0 entry ts = (List.replicate ts.length RateDecision.allow, entry) ∧
      Sent.synth 429 ∉ (handleLoopBody 0 now entry readReq writeOk readResp).sent := by
  intro entry ts now rq w r
  constructor
  · induction ts with
    | nil => simp [rateSeq]
    | cons t ts ih => simp [rateSeq, rateLimit_zero, ih, List.replicate_succ]
  · cases rq with
    | error err =>
        cases err with
        | incompleteRequest n =>
            cases n with
            | zero => simp [handleLoopBody]
            | succ m => simp [handleLoopBody, errorStatus]
        | malformedRequest => simp [handleLoopBody, errorStatus]
        | invalidContentLength => simp [handleLoopBody, errorStatus]
        | contentLengthMismatch => simp [handleLoopBody, errorStatus]
        | requestBodyTooLarge => simp [handleLoopBody, errorStatus]
        | connectionError => simp [handleLoopBody]
    | ok u =>
        cases u
        cases w <;> cases r <;> simp [handleLoopBody, rateLimit_zero]

/-- C7: every parse error other than clean end-of-stream and connection-level
I/O errors — an incomplete but nonempty request, a malformed request line, an
invalid or mismatched Content-Length — makes the handler send 400 Bad Request
and continue on the same connection; a request body exceeding the configured
maximum instead yields 413 Payload Too Large, also continuing; the two
statuses are distinct. -/
theorem c7_parse_error_responses :
    ∀ (limits now : Nat) (entry : Option (Nat × Nat)) (writeOk : Bool)
      (readResp : Option Nat) (n : Nat), n ≠ 0 →
      handleLoopBody limits now entry
          (Except.error (RequestError.incompleteRequest n)) writeOk readResp =
        ⟨LoopExit.cont, [Sent.synth 400], false, entry⟩ ∧
      handleLoopBody limits now entry
          (Except.error RequestError.malformedRequest) writeOk readResp =
        ⟨LoopExit.cont, [Sent.synth 400], false, entry⟩ ∧
      handleLoopBody limits now entry
          (Except.error RequestError.invalidContentLength) writeOk readResp =
        ⟨LoopExit.cont, [Sent.synth 400], false, entry⟩ ∧
      handleLoopBody limits now entry
          (Except.error RequestError.contentLengthMismatch) writeOk readResp =
        ⟨LoopExit.cont, [Sent.synth 400], false, entry⟩ ∧
      handleLoopBody limits now entry
          (Except.error RequestError.requestBodyTooLarge) writeOk readResp =
        ⟨LoopExit.cont, [Sent.synth 413], false, entry⟩ ∧
      (400 : Nat) ≠ 413 := by
  intro limits now entry w r n hn
  obtain ⟨m, rfl⟩ := Nat.exists_eq_succ_of_ne_zero hn
  refine ⟨?_, ?_, ?_, ?_, ?_, by decide⟩ <;> simp [handleLoopBody, errorStatus]

/-- C7 witness: the statement at limit 0, time 0, no stored entry, a
successful upstream write oracle, no upstream response, and an incomplete
request of 1 byte. -/
theorem c7_witness :
    handleLoopBody 0 0 none
        (Except.error (RequestError.incompleteRequest 1)) true none =
      ⟨LoopExit.cont, [Sent.synth 400], false, none⟩ ∧
    handleLoopBody 0 0 none
        (Except.error RequestError.malformedRequest) true none =
      ⟨LoopExit.cont, [Sent.synth 400], false, none⟩ ∧
    handleLoopBody 0 0 none
        (Except.error RequestError.invalidContentLength) true none =
      ⟨LoopExit.cont, [Sent.synth 400], false, none⟩ ∧
    handleLoopBody 0 0 none
        (Except.error RequestError.contentLengthMismatch) true none =
      ⟨LoopExit.cont, [Sent.synth 400], false, none⟩ ∧
    handleLoopBody 0 0 none
        (Except.error RequestError.requestBodyTooLarge) true none =
      ⟨LoopExit.cont, [Sent.synth 413], false, none⟩ ∧
    (400 : Nat) ≠ 413 :=
  c7_parse_error_responses 0 0 none true none 1 (by decide)

/-- C8: when upstream selection fails the handler sends exactly one 502 Bad
Gateway and never enters the request loop; and when a request passes the rate
limiter but the write to the upstream fails, or the read of the upstream's
response fails, the iteration sends exactly one 502 and terminates the
connection (the loop body contains no re-selection of an upstream). -/
theorem c8_upstream_failures_502 :
    ∀ (limits now : Nat) (entry : Option (Nat × Nat)) (readResp : Option Nat),
      handleConnectPhase false = ([Sent.synth 502], false) ∧
      ((rateLimit limits now entry).1 = RateDecision.allow →
        handleLoopBody limits now entry (Except.ok ()) false readResp =
          ⟨LoopExit.ret, [Sent.synth 502], true, (rateLimit limits now entry).2⟩) ∧
      ((rateLimit limits now entry).1 = RateDecision.allow →
        handleLoopBody limits now entry (Except.ok ()) true none =
          ⟨LoopExit.ret, [Sent.synth 502], true, (rateLimit limits now entry).2⟩) := by
  intro limits now entry r
  rcases hr : rateLimit limits now entry with ⟨d, e2⟩
  refine ⟨by simp [handleConnectPhase], ?_, ?_⟩ <;>
    · intro h
      simp only at h
      subst h
      simp [handleLoopBody, hr]

/-- C8 witness: the statement at limit 0 (the rate limiter allows), time 0,
no stored entry, and an upstream that would have answered 200. -/
theorem c8_witness :
    handleConnectPhase false = ([Sent.synth 502], false) ∧
    handleLoopBody 0 0 none (Except.ok ()) false (some 200) =
      ⟨LoopExit.ret, [Sent.synth 502], true, none⟩ ∧
    handleLoopBody 0 0 none (Except.ok ()) true none =
      ⟨LoopExit.ret, [Sent.synth 502], true, none⟩ := by
  obtain ⟨a, b, c⟩ := c8_upstream_failures_502 0 0 none (some 200)
  exact ⟨a, b (by decide), c (by decide)⟩

/-- C9: in every health-check cycle the checker visits every configured
upstream in configuration order, the event trace interleaving each probe with
the store of its result into the shared state immediately afterwards (before
the next probe, not batched at cycle end), a failing probe aborting nothing;
afterwards every upstream's stored liveness equals its probe result. -/
theorem c9_cycle_visits_all_in_order :
    ∀ (states : List Bool) (connectOk writeOk : Nat → Bool)
      (readResp : Nat → Option Nat),
      (healthCheckCycle states connectOk writeOk readResp).1 =
        (List.range states.length).flatMap
          (fun i => [HCEvent.probe i,
                     HCEvent.store i
                       (probeUpstream (connectOk i) (writeOk i) (readResp i))]) ∧
      ∀ i, i < states.length →
        (healthCheckCycle states connectOk writeOk readResp).2.getD i false =
          probeUpstream (connectOk i) (writeOk i) (readResp i) := by
  intro s c w r
  constructor
  · simp only [healthCheckCycle, healthCheck_foldl, List.nil_append]
  · intro i hi
    simp only [healthCheckCycle, healthCheck_foldl]
    exact setFold_getD (fun j => probeUpstream (c j) (w j) (r j)) s.length s
      le_rfl i hi

/-- C9 witness: with two configured upstreams whose probes all fail to
connect, the second upstream's stored liveness after the cycle is `false`. -/
theorem c9_witness :
    (healthCheckCycle [true, false] (fun _ => false) (fun _ => true)
        (fun _ => none)).2.getD 1 false = false :=
  (c9_cycle_visits_all_in_order [true, false] (fun _ => false) (fun _ => true)
    (fun _ => none)).2 1 (by decide)

/-- C10: the connection handler never sends a synthesized 503 Service
Unavailable response — not in any iteration of the request loop, whatever the
parse result and the upstream I/O outcomes, and not in the connect phase —
even though the error-status mapping does carry a connection-error-to-503
arm; that arm is unreachable because a connection-level I/O error is matched
earlier and terminates the connection silently with no response.  (A relayed
upstream response carries the upstream's own status and is not synthesized by
the handler.) -/
theorem c10_no_503 :
    ∀ (limits now : Nat) (entry : Option (Nat × Nat))
      (readReq : Except RequestError Unit) (writeOk : Bool)
      (readResp : Option Nat) (selectorOk : Bool),
      Sent.synth 503 ∉ (handleLoopBody limits now entry readReq writeOk readResp).sent ∧
      Sent.synth 503 ∉ (handleConnectPhase selectorOk).1 ∧
      handleLoopBody limits now entry (Except.error RequestError.connectionError)
          writeOk readResp =
        ⟨LoopExit.ret, [], false, entry⟩ ∧
      errorStatus RequestError.connectionError = 503 := by
  intro limits now entry rq w r sel
  refine ⟨?_, ?_, by simp [handleLoopBody], rfl⟩
  · cases rq with
    | error err =>
        cases err with
        | incompleteRequest n =>
            cases n with
            | zero => simp [handleLoopBody]
            | succ m => simp [handleLoopBody, errorStatus]
        | malformedRequest => simp [handleLoopBody, errorStatus]
        | invalidContentLength => simp [handleLoopBody, errorStatus]
        | contentLengthMismatch => simp [handleLoopBody, errorStatus]
        | requestBodyTooLarge => simp [handleLoopBody, errorStatus]
        | connectionError => simp [handleLoopBody]
    | ok u =>
        cases u
        rcases hr : rateLimit limits now entry with ⟨d, e2⟩
        cases d <;> cases w <;> cases r <;> simp [handleLoopBody, hr]
  · cases sel <;> simp [handleConnectPhase]

end BalanceBeam
